import Mathlib

/-!
Verification of the image/PDF/Word converter utilities
(`image_to_pdf.py`, `word_to_pdf.py`, `pdf_to_word.py`, `main.py`).

Real-valued quantities (reportlab points, scale factors) are embedded as
rationals `ℚ`; the Python code computes the same field operations over
IEEE floats, and every property below is an exact identity or inequality
of those field operations.  Fallible calls into external libraries
(PIL, reportlab, LibreOffice, docx2pdf, pdf2docx, the filesystem) are
embedded as `Except String`-valued fields of an explicit environment
record, and Python `try/except` blocks become matches on those results.
-/

/-- `reportlab.lib.units.inch` (72 points). -/
def inch : ℚ := 72

/-- `reportlab.lib.units.mm`: `inch / 25.4`. -/
def mmUnit : ℚ := inch / (254 / 10)

/-- `reportlab.lib.pagesizes.A4` = `(210*mm, 297*mm)`. -/
def a4Size : ℚ × ℚ := (210 * mmUnit, 297 * mmUnit)

/-- `reportlab.lib.pagesizes.letter` = `(8.5*inch, 11*inch)`. -/
def letterSize : ℚ × ℚ := (8.5 * inch, 11 * inch)

/-- Page geometry held by an `ImageToPdfConverter`: page width and height
in points (`self.page_size`) and the margin in points
(`self.margin = margin * inch`, `image_to_pdf.py` line 16). -/
structure PageGeometry where
  width : ℚ
  height : ℚ
  margin : ℚ
deriving DecidableEq

/-- The placement computed for one image: scale factor, drawn size and
lower-left corner, `image_to_pdf.py` lines 40-47 (identical code at
lines 96-104). -/
structure Placement where
  scale : ℚ
  finalWidth : ℚ
  finalHeight : ℚ
  x : ℚ
  y : ℚ
deriving DecidableEq

/-- Lines 40-47 of `image_to_pdf.py` (and 96-104):

    scale_x = (page_width - 2 * self.margin) / img_width
    scale_y = (page_height - 2 * self.margin) / img_height
    scale = min(scale_x, scale_y)
    final_width = img_width * scale
    final_height = img_height * scale
    x = (page_width - final_width) / 2
    y = (page_height - final_height) / 2
-/
def computePlacement (imgWidth imgHeight : ℚ) (g : PageGeometry) : Placement :=
  let scaleX := (g.width - 2 * g.margin) / imgWidth
  let scaleY := (g.height - 2 * g.margin) / imgHeight
  let scale := min scaleX scaleY
  let finalWidth := imgWidth * scale
  let finalHeight := imgHeight * scale
  { scale := scale
    finalWidth := finalWidth
    finalHeight := finalHeight
    x := (g.width - finalWidth) / 2
    y := (g.height - finalHeight) / 2 }

/-- **C1.** For every image with positive pixel dimensions and every page
geometry with positive usable area, the computed placement satisfies
`scale = min((W - 2*margin)/w, (H - 2*margin)/h)`,
`x = (W - w*scale)/2`, `y = (H - h*scale)/2`, and the scaled image is
centered on the page: `x + scale*w/2 = W/2` and `y + scale*h/2 = H/2`. -/
theorem computePlacement_centered (imgWidth imgHeight : ℚ) (g : PageGeometry)
    (hw : 0 < imgWidth) (hh : 0 < imgHeight)
    (hW : 0 < g.width - 2 * g.margin) (hH : 0 < g.height - 2 * g.margin) :
    (computePlacement imgWidth imgHeight g).scale
        = min ((g.width - 2 * g.margin) / imgWidth)
              ((g.height - 2 * g.margin) / imgHeight)
      ∧ (computePlacement imgWidth imgHeight g).x
        = (g.width - imgWidth * (computePlacement imgWidth imgHeight g).scale) / 2
      ∧ (computePlacement imgWidth imgHeight g).y
        = (g.height - imgHeight * (computePlacement imgWidth imgHeight g).scale) / 2
      ∧ (computePlacement imgWidth imgHeight g).x
          + (computePlacement imgWidth imgHeight g).scale * imgWidth / 2 = g.width / 2
      ∧ (computePlacement imgWidth imgHeight g).y
          + (computePlacement imgWidth imgHeight g).scale * imgHeight / 2 = g.height / 2 := by
  refine ⟨rfl, rfl, rfl, ?_, ?_⟩ <;>
    · simp only [computePlacement]
      ring

/-- Witness for C1 at a concrete input: a 1000x500 image on A4 with a
half-inch margin. -/
theorem computePlacement_centered_witness :
    (0 : ℚ) < 1000 ∧ (0 : ℚ) < 500
      ∧ 0 < (PageGeometry.mk a4Size.1 a4Size.2 (0.5 * inch)).width
              - 2 * (PageGeometry.mk a4Size.1 a4Size.2 (0.5 * inch)).margin
      ∧ 0 < (PageGeometry.mk a4Size.1 a4Size.2 (0.5 * inch)).height
              - 2 * (PageGeometry.mk a4Size.1 a4Size.2 (0.5 * inch)).margin
      ∧ (computePlacement 1000 500 (PageGeometry.mk a4Size.1 a4Size.2 (0.5 * inch))).x
          + (computePlacement 1000 500 (PageGeometry.mk a4Size.1 a4Size.2 (0.5 * inch))).scale
              * 1000 / 2
          = (PageGeometry.mk a4Size.1 a4Size.2 (0.5 * inch)).width / 2 := by
  have h1 : (0 : ℚ) < (PageGeometry.mk a4Size.1 a4Size.2 (0.5 * inch)).width
      - 2 * (PageGeometry.mk a4Size.1 a4Size.2 (0.5 * inch)).margin := by
    simp only [a4Size, mmUnit, inch]
    norm_num
  have h2 : (0 : ℚ) < (PageGeometry.mk a4Size.1 a4Size.2 (0.5 * inch)).height
      - 2 * (PageGeometry.mk a4Size.1 a4Size.2 (0.5 * inch)).margin := by
    simp only [a4Size, mmUnit, inch]
    norm_num
  exact ⟨by norm_num, by norm_num, h1, h2,
    (computePlacement_centered 1000 500 _ (by norm_num) (by norm_num) h1 h2).2.2.2.1⟩

/-- **C2.** With positive image dimensions and positive usable area, the
scaled image never exceeds the usable area:
`scale*w ≤ W - 2*margin` and `scale*h ≤ H - 2*margin`. -/
theorem computePlacement_fits (imgWidth imgHeight : ℚ) (g : PageGeometry)
    (hw : 0 < imgWidth) (hh : 0 < imgHeight)
    (hW : 0 < g.width - 2 * g.margin) (hH : 0 < g.height - 2 * g.margin) :
    (computePlacement imgWidth imgHeight g).scale * imgWidth ≤ g.width - 2 * g.margin
      ∧ (computePlacement imgWidth imgHeight g).scale * imgHeight
        ≤ g.height - 2 * g.margin := by
  constructor
  · have h := mul_le_mul_of_nonneg_right
      (min_le_left ((g.width - 2 * g.margin) / imgWidth)
        ((g.height - 2 * g.margin) / imgHeight)) (le_of_lt hw)
    calc (computePlacement imgWidth imgHeight g).scale * imgWidth
        ≤ (g.width - 2 * g.margin) / imgWidth * imgWidth := h
      _ = g.width - 2 * g.margin := div_mul_cancel₀ _ (ne_of_gt hw)
  · have h := mul_le_mul_of_nonneg_right
      (min_le_right ((g.width - 2 * g.margin) / imgWidth)
        ((g.height - 2 * g.margin) / imgHeight)) (le_of_lt hh)
    calc (computePlacement imgWidth imgHeight g).scale * imgHeight
        ≤ (g.height - 2 * g.margin) / imgHeight * imgHeight := h
      _ = g.height - 2 * g.margin := div_mul_cancel₀ _ (ne_of_gt hh)

/-- Witness for C2: the same 1000x500 image on A4 with a half-inch margin. -/
theorem computePlacement_fits_witness :
    (0 : ℚ) < 1000 ∧ (0 : ℚ) < 500
      ∧ 0 < (PageGeometry.mk a4Size.1 a4Size.2 (0.5 * inch)).width
              - 2 * (PageGeometry.mk a4Size.1 a4Size.2 (0.5 * inch)).margin
      ∧ 0 < (PageGeometry.mk a4Size.1 a4Size.2 (0.5 * inch)).height
              - 2 * (PageGeometry.mk a4Size.1 a4Size.2 (0.5 * inch)).margin
      ∧ (computePlacement 1000 500 (PageGeometry.mk a4Size.1 a4Size.2 (0.5 * inch))).scale * 1000
          ≤ (PageGeometry.mk a4Size.1 a4Size.2 (0.5 * inch)).width
              - 2 * (PageGeometry.mk a4Size.1 a4Size.2 (0.5 * inch)).margin := by
  have h1 : (0 : ℚ) < (PageGeometry.mk a4Size.1 a4Size.2 (0.5 * inch)).width
      - 2 * (PageGeometry.mk a4Size.1 a4Size.2 (0.5 * inch)).margin := by
    simp only [a4Size, mmUnit, inch]
    norm_num
  have h2 : (0 : ℚ) < (PageGeometry.mk a4Size.1 a4Size.2 (0.5 * inch)).height
      - 2 * (PageGeometry.mk a4Size.1 a4Size.2 (0.5 * inch)).margin := by
    simp only [a4Size, mmUnit, inch]
    norm_num
  exact ⟨by norm_num, by norm_num, h1, h2,
    (computePlacement_fits 1000 500 _ (by norm_num) (by norm_num) h1 h2).1⟩

/-- One drawing call issued to the reportlab canvas by
`_create_vertical_layout`: `canvas_obj.showPage()` (line 89) or
`canvas_obj.drawImage(img_path, x, y, final_width, final_height)`
(line 106). -/
inductive CanvasOp where
  | showPage : CanvasOp
  | drawImage (path : String) (x y w h : ℚ) : CanvasOp
deriving DecidableEq

/-- One entry of the `image_paths` list as the layout loop sees it:
the path, and the result of `Image.open(img_path)` followed by reading
`img.size` (`.ok (w, h)`), or the exception message when opening fails
(`.error e`). -/
structure ImageInput where
  path : String
  load : Except String (ℚ × ℚ)

/-- The canvas calls the body of the inner `try` block issues for one
image (`image_to_pdf.py` lines 91-107): on a successful open, one
`drawImage` at the computed placement; when the open raises, the
`except` branch draws nothing.  (A `drawImage` failure is caught by the
same handler; the embedding folds it into the open result.) -/
def imagePageOps (g : PageGeometry) (img : ImageInput) : List CanvasOp :=
  match img.load with
  | Except.ok (w, h) =>
      let p := computePlacement w h g
      [CanvasOp.drawImage img.path p.x p.y p.finalWidth p.finalHeight]
  | Except.error _ => []

/-- The error line printed by the inner `except` branch for one image
(`image_to_pdf.py` lines 108-110). -/
def imageReports (img : ImageInput) : List String :=
  match img.load with
  | Except.ok _ => []
  | Except.error e => ["✗ Error processing " ++ img.path ++ ": " ++ e]

/-- The loop of `_create_vertical_layout` (lines 87-110), carrying the
`enumerate` counter `i`: a `showPage` before every image but the first,
then the inner try-block for that image.  Returns the canvas-op trace
and the printed error reports. -/
def verticalAux (g : PageGeometry) : List ImageInput → Nat → List CanvasOp × List String
  | [], _ => ([], [])
  | img :: rest, i =>
      let pageBreak := if 0 < i then [CanvasOp.showPage] else []
      let r := verticalAux g rest (i + 1)
      (pageBreak ++ imagePageOps g img ++ r.1, imageReports img ++ r.2)

/-- `_create_vertical_layout(canvas, image_paths, ...)`: the loop started
with counter 0. -/
def createVerticalLayout (g : PageGeometry) (imgs : List ImageInput) :
    List CanvasOp × List String :=
  verticalAux g imgs 0

/-- `_create_horizontal_layout` (lines 112-113) just delegates to
`_create_vertical_layout`. -/
def createHorizontalLayout (g : PageGeometry) (imgs : List ImageInput) :
    List CanvasOp × List String :=
  createVerticalLayout g imgs

/-- `_create_grid_layout` (lines 115-116) just delegates to
`_create_vertical_layout`. -/
def createGridLayout (g : PageGeometry) (imgs : List ImageInput) :
    List CanvasOp × List String :=
  createVerticalLayout g imgs

/-- Result of the layout dispatch in `convert_multiple_images`
(lines 68-76): the canvas trace, the per-image error reports, and
whether the `Unknown layout` warning was printed. -/
structure ComposeResult where
  ops : List CanvasOp
  reports : List String
  layoutWarning : Bool
deriving DecidableEq

/-- The layout dispatch of `convert_multiple_images`
(`image_to_pdf.py` lines 68-76). -/
def composePages (g : PageGeometry) (imgs : List ImageInput) (layout : String) :
    ComposeResult :=
  if layout = "vertical" then
    { ops := (createVerticalLayout g imgs).1
      reports := (createVerticalLayout g imgs).2
      layoutWarning := false }
  else if layout = "horizontal" then
    { ops := (createHorizontalLayout g imgs).1
      reports := (createHorizontalLayout g imgs).2
      layoutWarning := false }
  else if layout = "grid" then
    { ops := (createGridLayout g imgs).1
      reports := (createGridLayout g imgs).2
      layoutWarning := false }
  else
    { ops := (createVerticalLayout g imgs).1
      reports := (createVerticalLayout g imgs).2
      layoutWarning := true }

/-- Split a canvas trace into pages: `showPage` finishes the current page
and starts the next one.  A reportlab canvas always has a current page,
so the empty trace is one (empty) page. -/
def splitPages : List CanvasOp → List (List CanvasOp)
  | [] => [[]]
  | CanvasOp.showPage :: rest => [] :: splitPages rest
  | op :: rest =>
      match splitPages rest with
      | [] => [[op]]
      | p :: ps => (op :: p) :: ps

/-- The image paths drawn in a canvas trace, in order. -/
def drawnPaths (ops : List CanvasOp) : List String :=
  ops.filterMap fun op =>
    match op with
    | CanvasOp.drawImage p _ _ _ _ => some p
    | CanvasOp.showPage => none

/-- The path of an image that will actually be drawn: `some` exactly when
`Image.open` succeeds. -/
def usablePath (img : ImageInput) : Option String :=
  match img.load with
  | Except.ok _ => some img.path
  | Except.error _ => none

/-- One CLI input path as `main()` sees it (`image_to_pdf.py` lines
146-155): whether `os.path.isfile` holds and whether `Image.open`
succeeds. -/
structure FileInput where
  path : String
  isFile : Bool
  opens : Bool

/-- The `valid_images` list built by `main()` (lines 146-155): inputs
that exist and open as images. -/
def validImages (files : List FileInput) : List FileInput :=
  files.filter fun f => f.isFile && f.opens

/-- `main()` aborts the whole run (`if not valid_images: ... return`,
lines 157-159). -/
def mainAborts (files : List FileInput) : Bool :=
  (validImages files).isEmpty

theorem verticalAux_pos (g : PageGeometry) (imgs : List ImageInput) :
    ∀ i j : Nat, 0 < i → 0 < j → verticalAux g imgs i = verticalAux g imgs j := by
  induction imgs with
  | nil => intro i j _ _; rfl
  | cons img rest ih =>
      intro i j hi hj
      simp only [verticalAux, if_pos hi, if_pos hj,
        ih (i + 1) (j + 1) (Nat.succ_pos i) (Nat.succ_pos j)]

theorem splitPages_pageOps_single (g : PageGeometry) (img : ImageInput) :
    splitPages (imagePageOps g img) = [imagePageOps g img] := by
  cases h : img.load <;> simp [imagePageOps, splitPages, h]

theorem splitPages_pageOps_break (g : PageGeometry) (img : ImageInput)
    (rest : List CanvasOp) :
    splitPages (imagePageOps g img ++ CanvasOp.showPage :: rest)
      = imagePageOps g img :: splitPages rest := by
  cases h : img.load <;> simp [imagePageOps, splitPages, h]

theorem splitPages_verticalAux (g : PageGeometry) (rest : List ImageInput) :
    ∀ img0 : ImageInput,
      splitPages (imagePageOps g img0 ++ (verticalAux g rest 1).1)
        = imagePageOps g img0 :: rest.map (imagePageOps g) := by
  induction rest with
  | nil => intro img0; simp [verticalAux, splitPages_pageOps_single]
  | cons r rs ih =>
      intro img0
      have h2 : verticalAux g rs 2 = verticalAux g rs 1 :=
        verticalAux_pos g rs 2 1 (by norm_num) Nat.one_pos
      simp only [verticalAux, if_pos Nat.one_pos, h2]
      rw [show ([CanvasOp.showPage] ++ imagePageOps g r ++ (verticalAux g rs 1).1)
            = CanvasOp.showPage :: (imagePageOps g r ++ (verticalAux g rs 1).1) by simp]
      rw [splitPages_pageOps_break, ih r]
      simp

/-- **C10.** The trace of `_create_vertical_layout` on a nonempty image
list splits into exactly one page per input image, in input order: page
`i` holds the single `drawImage` for image `i` at its computed placement
when the image opens, and is blank (`[]`) when the open fails — a failed
open never reduces the page count, because the `showPage` for image
`i > 0` is emitted before the image is opened. -/
theorem vertical_one_page_per_image (g : PageGeometry) (imgs : List ImageInput)
    (h : imgs ≠ []) :
    splitPages (createVerticalLayout g imgs).1 = imgs.map (imagePageOps g)
      ∧ (splitPages (createVerticalLayout g imgs).1).length = imgs.length
      ∧ ∀ img : ImageInput, (∃ e, img.load = Except.error e) →
          imagePageOps g img = [] := by
  match imgs, h with
  | img0 :: rest, _ =>
    have hsplit : splitPages (createVerticalLayout g (img0 :: rest)).1
        = (img0 :: rest).map (imagePageOps g) := by
      simp only [createVerticalLayout, verticalAux, if_neg (lt_irrefl 0),
        List.nil_append]
      exact splitPages_verticalAux g rest img0
    refine ⟨hsplit, ?_, ?_⟩
    · rw [hsplit, List.length_map]
    · intro img ⟨e, he⟩
      simp [imagePageOps, he]

/-- Witness for C10: two images, the second failing to open, still give
two pages, the second blank. -/
theorem vertical_one_page_per_image_witness :
    ([ImageInput.mk "a.png" (Except.ok ((100 : ℚ), (50 : ℚ))),
      ImageInput.mk "b.png" (Except.error "broken")] ≠ [])
      ∧ splitPages (createVerticalLayout (PageGeometry.mk 600 800 36)
            [ImageInput.mk "a.png" (Except.ok ((100 : ℚ), (50 : ℚ))),
             ImageInput.mk "b.png" (Except.error "broken")]).1
          = [ImageInput.mk "a.png" (Except.ok ((100 : ℚ), (50 : ℚ))),
             ImageInput.mk "b.png" (Except.error "broken")].map
              (imagePageOps (PageGeometry.mk 600 800 36)) := by
  refine ⟨by simp, ?_⟩
  exact (vertical_one_page_per_image (PageGeometry.mk 600 800 36)
    [ImageInput.mk "a.png" (Except.ok ((100 : ℚ), (50 : ℚ))),
     ImageInput.mk "b.png" (Except.error "broken")] (by simp)).1

theorem drawnPaths_append (a b : List CanvasOp) :
    drawnPaths (a ++ b) = drawnPaths a ++ drawnPaths b := by
  simp [drawnPaths, List.filterMap_append]

theorem drawnPaths_verticalAux (g : PageGeometry) (imgs : List ImageInput) :
    ∀ i : Nat, drawnPaths (verticalAux g imgs i).1 = imgs.filterMap usablePath := by
  induction imgs with
  | nil => intro i; simp [verticalAux, drawnPaths]
  | cons img rest ih =>
      intro i
      simp only [verticalAux, drawnPaths_append, ih (i + 1), List.filterMap_cons]
      cases h : img.load with
      | ok wh =>
          cases wh with
          | mk w hgt => simp [usablePath, imagePageOps, drawnPaths, h]
      | error e => simp [usablePath, imagePageOps, drawnPaths, h]

theorem reports_verticalAux (g : PageGeometry) (imgs : List ImageInput) :
    ∀ i : Nat, (verticalAux g imgs i).2 = (imgs.map imageReports).join := by
  induction imgs with
  | nil => intro i; simp [verticalAux]
  | cons img rest ih =>
      intro i
      simp [verticalAux, ih (i + 1)]

/-- **C6.** Batch mode continues past individual failures: with an image
that fails to open sitting anywhere in the list, its error is reported,
it contributes no drawing, every other image (before and after it) is
still drawn in order, and every remaining image that opens is drawn.
The whole run aborts only when there are no usable inputs at all
(`main()`, lines 157-159). -/
theorem batch_continues_past_failure (g : PageGeometry)
    (pre post : List ImageInput) (bad : ImageInput) (e : String)
    (hbad : bad.load = Except.error e) :
    ("✗ Error processing " ++ bad.path ++ ": " ++ e)
        ∈ (createVerticalLayout g (pre ++ bad :: post)).2
      ∧ drawnPaths (createVerticalLayout g (pre ++ bad :: post)).1
        = pre.filterMap usablePath ++ post.filterMap usablePath
      ∧ (∀ img ∈ post, (∃ wh, img.load = Except.ok wh) →
          img.path ∈ drawnPaths (createVerticalLayout g (pre ++ bad :: post)).1)
      ∧ (∀ files : List FileInput, mainAborts files = true ↔ validImages files = []) := by
  refine ⟨?_, ?_, ?_, ?_⟩
  · rw [show (createVerticalLayout g (pre ++ bad :: post)).2
        = ((pre ++ bad :: post).map imageReports).join from
        reports_verticalAux g (pre ++ bad :: post) 0]
    rw [List.mem_join]
    refine ⟨imageReports bad, ?_, ?_⟩
    · exact List.mem_map_of_mem imageReports (by simp)
    · simp [imageReports, hbad]
  · rw [show drawnPaths (createVerticalLayout g (pre ++ bad :: post)).1
        = (pre ++ bad :: post).filterMap usablePath from
        drawnPaths_verticalAux g (pre ++ bad :: post) 0]
    simp [List.filterMap_append, List.filterMap_cons, usablePath, hbad]
  · intro img hmem ⟨wh, hok⟩
    rw [show drawnPaths (createVerticalLayout g (pre ++ bad :: post)).1
        = (pre ++ bad :: post).filterMap usablePath from
        drawnPaths_verticalAux g (pre ++ bad :: post) 0]
    rw [List.mem_filterMap]
    exact ⟨img, by simp [hmem], by simp [usablePath, hok]⟩
  · intro files
    simp [mainAborts, List.isEmpty_iff]

/-- Witness for C6: `[good, bad, good2]` reports the failure of `bad` and
draws `good` and `good2`. -/
theorem batch_continues_past_failure_witness :
    ((ImageInput.mk "bad.png" (Except.error "cannot identify image file")).load
        = Except.error "cannot identify image file")
      ∧ drawnPaths (createVerticalLayout (PageGeometry.mk 600 800 36)
            ([ImageInput.mk "good.png" (Except.ok ((10 : ℚ), (20 : ℚ)))]
              ++ ImageInput.mk "bad.png" (Except.error "cannot identify image file")
                :: [ImageInput.mk "good2.png" (Except.ok ((30 : ℚ), (40 : ℚ)))])).1
          = [ImageInput.mk "good.png" (Except.ok ((10 : ℚ), (20 : ℚ)))].filterMap usablePath
            ++ [ImageInput.mk "good2.png" (Except.ok ((30 : ℚ), (40 : ℚ)))].filterMap usablePath := by
  exact ⟨rfl,
    (batch_continues_past_failure (PageGeometry.mk 600 800 36)
      [ImageInput.mk "good.png" (Except.ok ((10 : ℚ), (20 : ℚ)))]
      [ImageInput.mk "good2.png" (Except.ok ((30 : ℚ), (40 : ℚ)))]
      (ImageInput.mk "bad.png" (Except.error "cannot identify image file"))
      "cannot identify image file" rfl).2.1⟩

/-- **C3.** The `horizontal` and `grid` layout tags produce exactly the
same result as `vertical`: one page per input image, each page the
single `drawImage` computed via `computePlacement`, in input order. -/
theorem compose_layouts_identical (g : PageGeometry) (imgs : List ImageInput) :
    composePages g imgs "horizontal" = composePages g imgs "vertical"
      ∧ composePages g imgs "grid" = composePages g imgs "vertical"
      ∧ (imgs ≠ [] →
          splitPages (composePages g imgs "horizontal").ops = imgs.map (imagePageOps g)
            ∧ (splitPages (composePages g imgs "horizontal").ops).length = imgs.length) := by
  have hh : composePages g imgs "horizontal" = composePages g imgs "vertical" := by
    simp [composePages, createHorizontalLayout]
  have hg : composePages g imgs "grid" = composePages g imgs "vertical" := by
    simp [composePages, createGridLayout]
  refine ⟨hh, hg, fun hne => ?_⟩
  have hops : (composePages g imgs "horizontal").ops = (createVerticalLayout g imgs).1 := by
    simp [composePages, createHorizontalLayout]
  rw [hops]
  exact ⟨(vertical_one_page_per_image g imgs hne).1,
    (vertical_one_page_per_image g imgs hne).2.1⟩

/-- Witness for C3: three images under `grid`/`horizontal` give exactly
three pages, identical to `vertical`. -/
theorem compose_layouts_identical_witness :
    ([ImageInput.mk "p1.png" (Except.ok ((10 : ℚ), (10 : ℚ))),
      ImageInput.mk "p2.png" (Except.ok ((20 : ℚ), (10 : ℚ))),
      ImageInput.mk "p3.png" (Except.ok ((30 : ℚ), (10 : ℚ)))] ≠ [])
      ∧ (splitPages (composePages (PageGeometry.mk 600 800 36)
            [ImageInput.mk "p1.png" (Except.ok ((10 : ℚ), (10 : ℚ))),
             ImageInput.mk "p2.png" (Except.ok ((20 : ℚ), (10 : ℚ))),
             ImageInput.mk "p3.png" (Except.ok ((30 : ℚ), (10 : ℚ)))] "horizontal").ops).length
          = 3 := by
  refine ⟨by simp, ?_⟩
  exact (compose_layouts_identical (PageGeometry.mk 600 800 36)
    [ImageInput.mk "p1.png" (Except.ok ((10 : ℚ), (10 : ℚ))),
     ImageInput.mk "p2.png" (Except.ok ((20 : ℚ), (10 : ℚ))),
     ImageInput.mk "p3.png" (Except.ok ((30 : ℚ), (10 : ℚ)))]).2.2 (by simp) |>.2

/-- **C7.** For every page geometry and every layout tag, the dispatch of
`convert_multiple_images` applied to an empty image list produces an
empty canvas trace and no error reports. -/
theorem compose_empty (g : PageGeometry) (layout : String) :
    (composePages g [] layout).ops = [] ∧ (composePages g [] layout).reports = [] := by
  simp only [composePages]
  split
  · simp [createVerticalLayout, verticalAux]
  · split
    · simp [createHorizontalLayout, createVerticalLayout, verticalAux]
    · split
      · simp [createGridLayout, createVerticalLayout, verticalAux]
      · simp [createVerticalLayout, verticalAux]

/-- **C8.** Every layout tag outside `{vertical, horizontal, grid}` falls
back to the single-image-per-page (vertical) behavior and sets the
`Unknown layout` warning instead of failing. -/
theorem compose_unknown_layout (g : PageGeometry) (imgs : List ImageInput)
    (layout : String) (h1 : layout ≠ "vertical") (h2 : layout ≠ "horizontal")
    (h3 : layout ≠ "grid") :
    composePages g imgs layout
      = { ops := (createVerticalLayout g imgs).1
          reports := (createVerticalLayout g imgs).2
          layoutWarning := true } := by
  simp [composePages, h1, h2, h3]

/-- Witness for C8 at the unknown tag `diagonal`. -/
theorem compose_unknown_layout_witness :
    ("diagonal" ≠ "vertical") ∧ ("diagonal" ≠ "horizontal") ∧ ("diagonal" ≠ "grid")
      ∧ composePages (PageGeometry.mk 600 800 36) [] "diagonal"
        = { ops := (createVerticalLayout (PageGeometry.mk 600 800 36) []).1
            reports := (createVerticalLayout (PageGeometry.mk 600 800 36) []).2
            layoutWarning := true } := by
  refine ⟨by decide, by decide, by decide, ?_⟩
  exact compose_unknown_layout (PageGeometry.mk 600 800 36) [] "diagonal"
    (by decide) (by decide) (by decide)

/-- Python `str.upper()` (ASCII range, which is all the code compares). -/
def upperStr (s : String) : String := String.mk (s.data.map Char.toUpper)

/-- Python `str.lower()` (ASCII range). -/
def lowerStr (s : String) : String := String.mk (s.data.map Char.toLower)

/-- Split a character list on a separator, Python `str.split(sep)` style:
`"x".split('x') == ["", ""]`, `"abc".split('x') == ["abc"]`. -/
def splitChars (c : Char) : List Char → List Char → List (List Char)
  | [], acc => [acc.reverse]
  | d :: rest, acc =>
      if d = c then acc.reverse :: splitChars c rest []
      else splitChars c rest (d :: acc)

/-- Python `str.split(sep)` for a one-character separator. -/
def splitOnChar (c : Char) (s : String) : List String :=
  (splitChars c s.data []).map String.mk

/-- Python `str.endswith(suffix)`. -/
def endsWithStr (s suf : String) : Bool :=
  s.data.reverse.take suf.data.length == suf.data.reverse

/-- Python `str.strip()` on the whitespace characters that matter here. -/
def stripStr (s : String) : String :=
  let ws : Char → Bool := fun c => c = ' ' || c = '\t' || c = '\n' || c = '\r'
  String.mk (((s.data.dropWhile ws).reverse.dropWhile ws).reverse)

/-- Numeric value of a digit string. -/
def digitsVal (l : List Char) : Nat := l.foldl (fun n c => 10 * n + (c.toNat - 48)) 0

/-- The value of a Python `float(...)` call: a finite value (embedded
exactly in ℚ), a signed infinity, or a NaN. -/
inductive PyFloat where
  | finite (val : ℚ)
  | inf (negative : Bool)
  | nan
deriving DecidableEq

/-- The ASCII whitespace `float()` strips from both ends (space, tab,
newline, carriage return, vertical tab, form feed). -/
def pyWs (c : Char) : Bool :=
  c = ' ' || c = '\t' || c = '\n' || c = '\r' || c.toNat = 11 || c.toNat = 12

/-- CPython `digitpart`: `digit (['_'] digit)*` — one or more digits with
single underscores allowed only between digits.  The flag records
whether the previous character was a digit (so an underscore is legal,
and so is ending). -/
def digitRun : List Char → Bool → Bool
  | [], afterDigit => afterDigit
  | c :: rest, afterDigit =>
      if '0' ≤ c ∧ c ≤ '9' then digitRun rest true
      else if c = '_' then afterDigit && digitRun rest false
      else false

/-- Drop the underscore digit separators before taking the value. -/
def cleanDigits (l : List Char) : List Char := l.filter fun c => c ≠ '_'

/-- A possibly-empty `digitpart` (the integer or fraction part of
`[digitpart] '.' [digitpart]` may be absent). -/
def emptyOrRun (l : List Char) : Bool := l.isEmpty || digitRun l false

/-- CPython `number`: `digitpart | [digitpart] '.' [digitpart]` — at most
one decimal point and at least one digit overall. -/
def parseMantissa (m : List Char) : Option ℚ :=
  match splitChars '.' m [] with
  | [ip] =>
      if digitRun ip false then some ((digitsVal (cleanDigits ip) : ℚ)) else none
  | [ip, fp] =>
      if (!(ip.isEmpty && fp.isEmpty)) && emptyOrRun ip && emptyOrRun fp then
        some ((digitsVal (cleanDigits ip) : ℚ)
          + (digitsVal (cleanDigits fp) : ℚ) / 10 ^ (cleanDigits fp).length)
      else none
  | _ => none

/-- CPython `exponent` body after the `e`/`E`: optional sign then a
`digitpart`. -/
def parseExpPart : List Char → Option ℤ
  | '+' :: rest =>
      if digitRun rest false then some ((digitsVal (cleanDigits rest) : ℤ)) else none
  | '-' :: rest =>
      if digitRun rest false then some (-((digitsVal (cleanDigits rest) : ℤ))) else none
  | rest =>
      if digitRun rest false then some ((digitsVal (cleanDigits rest) : ℤ)) else none

/-- Split a float literal at its first `e`/`E` into mantissa and
(optional) exponent text; the grammar allows the marker only once, which
`parseExpPart` enforces on the remainder. -/
def splitOnExp : List Char → List Char × Option (List Char)
  | [] => ([], none)
  | c :: rest =>
      if c = 'e' ∨ c = 'E' then ([], some rest)
      else
        let r := splitOnExp rest
        (c :: r.1, r.2)

/-- Python `float(s)` on a string, per the CPython grammar:
surrounding whitespace stripped, an optional sign, then case-insensitive
`inf`/`infinity`/`nan` or `number [exponent]` with underscore digit
separators.  Finite values are exact in ℚ (the file-level float-as-ℚ
idealization); the non-ASCII digits and whitespace CPython additionally
tolerates are outside the modelled alphabet. -/
def parsePyFloat (s : String) : Option PyFloat :=
  let trimmed := ((s.data.dropWhile pyWs).reverse.dropWhile pyWs).reverse
  let signBody : Bool × List Char :=
    match trimmed with
    | '-' :: rest => (true, rest)
    | '+' :: rest => (false, rest)
    | l => (false, l)
  let lower := signBody.2.map Char.toLower
  if lower = ['i', 'n', 'f'] ∨ lower = ['i', 'n', 'f', 'i', 'n', 'i', 't', 'y'] then
    some (PyFloat.inf signBody.1)
  else if lower = ['n', 'a', 'n'] then some PyFloat.nan
  else
    let se := splitOnExp signBody.2
    match parseMantissa se.1 with
    | none => none
    | some mv =>
        match se.2 with
        | none => some (PyFloat.finite (if signBody.1 then -mv else mv))
        | some ex =>
            match parseExpPart ex with
            | none => none
            | some ev =>
                some (PyFloat.finite
                  (if signBody.1 then -(mv * (10 : ℚ) ^ ev) else mv * (10 : ℚ) ^ ev))

/-- Float multiplication by the positive finite constant `inch` (72):
exact on finite values, preserving the sign of infinities and
propagating NaN. -/
def pyMulPos (x : PyFloat) (c : ℚ) : PyFloat :=
  match x with
  | PyFloat.finite q => PyFloat.finite (q * c)
  | PyFloat.inf s => PyFloat.inf s
  | PyFloat.nan => PyFloat.nan

/-- The `try` block of `_get_page_size` (lines 24-26):
`width, height = map(float, page_size.split('x'))` succeeds exactly when
the split yields two `float()`-parseable parts; any other shape raises
(`ValueError` from `float`, or an unpacking error) and lands in the bare
`except`. -/
def parseWxH (s : String) : Option (PyFloat × PyFloat) :=
  match splitOnChar 'x' s with
  | [ws, hs] =>
      match parsePyFloat ws, parsePyFloat hs with
      | some w, some h => some (w, h)
      | _, _ => none
  | _ => none

/-- `ImageToPdfConverter._get_page_size` (lines 18-29).  Returns the
chosen `(width, height)` as the float values the code computes and
whether the `Invalid page size ... Using A4.` warning was printed. -/
def getPageSize (s : String) : (PyFloat × PyFloat) × Bool :=
  if upperStr s = "A4" then ((PyFloat.finite a4Size.1, PyFloat.finite a4Size.2), false)
  else if upperStr s = "LETTER" then
    ((PyFloat.finite letterSize.1, PyFloat.finite letterSize.2), false)
  else
    match parseWxH s with
    | some (w, h) => ((pyMulPos w inch, pyMulPos h inch), false)
    | none => ((PyFloat.finite a4Size.1, PyFloat.finite a4Size.2), true)

/-- **C9.** `_get_page_size`: `A4` and `LETTER` (case-insensitive) select
the presets without warning; a `WxH` pair whose parts `float()` accepts
selects `(W*inch, H*inch)` without warning; every other string falls
back to A4 with the warning. -/
theorem getPageSize_spec (s : String) :
    (upperStr s = "A4" →
        getPageSize s = ((PyFloat.finite a4Size.1, PyFloat.finite a4Size.2), false))
      ∧ (upperStr s = "LETTER" →
          getPageSize s = ((PyFloat.finite letterSize.1, PyFloat.finite letterSize.2), false))
      ∧ (∀ w h : PyFloat, upperStr s ≠ "A4" → upperStr s ≠ "LETTER" →
          parseWxH s = some (w, h) →
          getPageSize s = ((pyMulPos w inch, pyMulPos h inch), false))
      ∧ (upperStr s ≠ "A4" → upperStr s ≠ "LETTER" → parseWxH s = none →
          getPageSize s = ((PyFloat.finite a4Size.1, PyFloat.finite a4Size.2), true)) := by
  refine ⟨fun h => ?_, fun h => ?_, fun w h h1 h2 h3 => ?_, fun h1 h2 h3 => ?_⟩
  · simp [getPageSize, h]
  · cases hA : decide (upperStr s = "A4") with
    | true => simp_all
    | false => simp [getPageSize, of_decide_eq_false hA, h]
  · simp [getPageSize, h1, h2, h3]
  · simp [getPageSize, h1, h2, h3]

/-- Witness for C9: `"8.5x11"` parses to `(8.5*inch, 11*inch)` with no
warning and `"bogus"` falls back to A4 with the warning; the parser also
accepts `float()`-isms — surrounding whitespace, exponents, underscore
separators, infinities — exactly as the code does. -/
theorem getPageSize_spec_witness :
    (upperStr "8.5x11" ≠ "A4") ∧ (upperStr "8.5x11" ≠ "LETTER")
      ∧ parseWxH "8.5x11" = some (PyFloat.finite (17 / 2), PyFloat.finite 11)
      ∧ getPageSize "8.5x11"
          = ((pyMulPos (PyFloat.finite (17 / 2)) inch,
              pyMulPos (PyFloat.finite 11) inch), false)
      ∧ getPageSize "bogus" = ((PyFloat.finite a4Size.1, PyFloat.finite a4Size.2), true)
      ∧ parseWxH " 8x11" = some (PyFloat.finite 8, PyFloat.finite 11)
      ∧ parseWxH "1e1x2" = some (PyFloat.finite 10, PyFloat.finite 2)
      ∧ parseWxH "8_0x11" = some (PyFloat.finite 80, PyFloat.finite 11)
      ∧ parseWxH "infx11" = some (PyFloat.inf false, PyFloat.finite 11) := by
  have hp : parseWxH "8.5x11" = some (PyFloat.finite (17 / 2), PyFloat.finite 11) := by
    simp [parseWxH, splitOnChar, parsePyFloat, pyWs, splitOnExp, parseMantissa,
      parseExpPart, splitChars, digitRun, emptyOrRun, cleanDigits, digitsVal]
    norm_num
  have hn : parseWxH "bogus" = none := by
    simp [parseWxH, splitOnChar, parsePyFloat, pyWs, splitOnExp, parseMantissa,
      parseExpPart, splitChars, digitRun, emptyOrRun, cleanDigits]
  refine ⟨by decide, by decide, hp, ?_, ?_, ?_, ?_, ?_, ?_⟩
  · exact (getPageSize_spec "8.5x11").2.2.1 (PyFloat.finite (17 / 2)) (PyFloat.finite 11)
      (by decide) (by decide) hp
  · exact (getPageSize_spec "bogus").2.2.2 (by decide) (by decide) hn
  · simp [parseWxH, splitOnChar, parsePyFloat, pyWs, splitOnExp, parseMantissa,
      parseExpPart, splitChars, digitRun, emptyOrRun, cleanDigits, digitsVal]
  · simp [parseWxH, splitOnChar, parsePyFloat, pyWs, splitOnExp, parseMantissa,
      parseExpPart, splitChars, digitRun, emptyOrRun, cleanDigits, digitsVal]
  · simp [parseWxH, splitOnChar, parsePyFloat, pyWs, splitOnExp, parseMantissa,
      parseExpPart, splitChars, digitRun, emptyOrRun, cleanDigits, digitsVal]
  · simp [parseWxH, splitOnChar, parsePyFloat, pyWs, splitOnExp, parseMantissa,
      parseExpPart, splitChars, digitRun, emptyOrRun, cleanDigits, digitsVal]

/-- Join path pieces with dots (helper for `Path.with_suffix`). -/
def joinDots : List String → String
  | [] => ""
  | [p] => p
  | p :: rest => p ++ "." ++ joinDots rest

/-- `pathlib.Path(p).with_suffix(suffix)`: replace the last extension (or
append one).  Dots inside directory names are not modelled; no claim
depends on the exact output path string. -/
def withSuffix (p suffix : String) : String :=
  match splitOnChar '.' p with
  | [_] => p ++ suffix
  | parts => joinDots parts.dropLast ++ suffix

/-- `pathlib.Path(p).suffix`: the last extension including its dot, or
`""` when there is none. -/
def pathSuffix (p : String) : String :=
  match splitOnChar '.' p with
  | [_] => ""
  | parts => "." ++ parts.getLastD ""

/-- Python `try body except Exception as e: handler(e)` around a fallible
body whose handler returns normally. -/
def tryExcept {α : Type} (body : Except String α) (handler : String → α) :
    Except String α :=
  match body with
  | Except.ok v => Except.ok v
  | Except.error e => Except.ok (handler e)

/-- The call returned normally — no exception crossed its boundary. -/
def okE {α : Type} (r : Except String α) : Prop := ∃ v, r = Except.ok v

theorem tryExcept_ok {α : Type} (body : Except String α) (handler : String → α) :
    okE (tryExcept body handler) := by
  cases body with
  | ok v => exact ⟨v, rfl⟩
  | error e => exact ⟨handler e, rfl⟩

/-- The external world as `word_to_pdf.py` sees it.  `Except.error`
results are the exceptions the corresponding Python call can raise;
`importDocx2pdf` / `importPythonLibs` model the `import` statements
(`ImportError` when the library is absent; the error payload of
`importPythonLibs` is the missing-library name the handler extracts from
the exception text).  `libreofficeVersion` is
`subprocess.run(['libreoffice', '--version']).returncode`, erroring when
spawning fails; `libreofficeConvert` gives `(returncode, stderr)` of the
headless conversion; `renameGenerated` stands for lines 85-91 (locate
the PDF LibreOffice generated and rename it to the requested output). -/
structure WordEnv where
  osName : String
  pathExists : String → Bool
  mkdirParent : String → Except String Unit
  importDocx2pdf : Except String Unit
  docx2pdfConvert : String → String → Except String Unit
  libreofficeVersion : Except String Int
  libreofficeConvert : String → String → Except String (Int × String)
  renameGenerated : String → String → Except String Unit
  importPythonLibs : Except String Unit
  docxParagraphs : String → Except String (List String)
  buildPdf : String → List String → Except String Unit

/-- `is_windows()`: `platform.system().lower() == 'windows'`. -/
def isWindowsEnv (env : WordEnv) : Bool := env.osName = "windows"

/-- `is_linux()`: `platform.system().lower() == 'linux'`. -/
def isLinuxEnv (env : WordEnv) : Bool := env.osName = "linux"

/-- `convert_with_docx2pdf` (`word_to_pdf.py` lines 17-50).  The whole
body sits in one `try`; each fallible step's `error` case is the
matching `except` branch (`ImportError` for the import, the generic
handler for the rest), so the function always returns normally. -/
def convertWithDocx2pdf (env : WordEnv) (inp : String) (out? : Option String) :
    Bool × List String :=
  match env.importDocx2pdf with
  | Except.error _ =>
      (false, ["Error: docx2pdf library not found. Please install it using:",
               "pip install docx2pdf",
               "Note: docx2pdf requires Microsoft Word to be installed on Windows."])
  | Except.ok _ =>
      let out := out?.getD (withSuffix inp ".pdf")
      match env.mkdirParent out with
      | Except.error e => (false, ["Error during conversion: " ++ e])
      | Except.ok _ =>
          let converting :=
            "Converting '" ++ inp ++ "' to '" ++ out ++ "' using docx2pdf (Windows)..."
          match env.docx2pdfConvert inp out with
          | Except.error e => (false, [converting, "Error during conversion: " ++ e])
          | Except.ok _ =>
              if env.pathExists out then
                (true, [converting, "Success! PDF saved as: " ++ out])
              else
                (false, [converting, "Error: Conversion failed - output file not created."])

/-- `convert_with_libreoffice` (`word_to_pdf.py` lines 53-101): check the
engine via `--version`, print install guidance and return `False` when
the returncode is nonzero, otherwise convert headlessly, rename the
generated file, and report.  Every fallible step is inside the `try`,
its `error` case handled by the `except Exception` branch. -/
def convertWithLibreoffice (env : WordEnv) (inp : String) (out? : Option String) :
    Bool × List String :=
  match env.libreofficeVersion with
  | Except.error e => (false, ["Error during LibreOffice conversion: " ++ e])
  | Except.ok rc =>
      if rc ≠ 0 then
        (false, ["Error: LibreOffice is not installed. Install it with:",
                 "sudo apt-get install libreoffice"])
      else
        let out := out?.getD (withSuffix inp ".pdf")
        let converting :=
          "Converting '" ++ inp ++ "' to '" ++ out ++ "' using LibreOffice (Linux)..."
        match env.libreofficeConvert inp out with
        | Except.error e => (false, [converting, "Error during LibreOffice conversion: " ++ e])
        | Except.ok rs =>
            if rs.1 = 0 then
              match env.renameGenerated inp out with
              | Except.error e =>
                  (false, [converting, "Error during LibreOffice conversion: " ++ e])
              | Except.ok _ => (true, [converting, "Success! PDF saved as: " ++ out])
            else (false, [converting, "Error: " ++ rs.2])

/-- `convert_with_python_libs` (`word_to_pdf.py` lines 104-148): the
basic text-only reconstruction — read the docx paragraphs, keep those
with non-blank stripped text, build a PDF of them.  `ImportError` and
the generic handler are the two `error` branches. -/
def convertWithPythonLibs (env : WordEnv) (inp : String) (out? : Option String) :
    Bool × List String :=
  match env.importPythonLibs with
  | Except.error lib =>
      (false, ["Error: Required library '" ++ lib ++ "' not found.",
               "Install required libraries with:",
               "pip install python-docx reportlab"])
  | Except.ok _ =>
      let out := out?.getD (withSuffix inp ".pdf")
      let converting :=
        "Converting '" ++ inp ++ "' to '" ++ out ++ "' using Python libraries (Linux fallback)..."
      match env.docxParagraphs inp with
      | Except.error e => (false, [converting, "Error during Python library conversion: " ++ e])
      | Except.ok paras =>
          let story := paras.filter fun p => !(stripStr p).isEmpty
          match env.buildPdf out story with
          | Except.error e =>
              (false, [converting, "Error during Python library conversion: " ++ e])
          | Except.ok _ =>
              (true, [converting, "Success! PDF saved as: " ++ out,
                "Note: This method provides basic conversion. For better formatting, install LibreOffice."])

/-- The method dispatch of `convert_word_to_pdf` (lines 167-198), after
validation and the output-directory creation. -/
def wordDispatch (env : WordEnv) (inp : String) (out? : Option String)
    (method : String) : Bool × List String :=
  let detected := "Detected OS: " ++ env.osName
  if method = "auto" then
    if isWindowsEnv env then
      let r := convertWithDocx2pdf env inp out?
      (r.1, detected :: "Using Windows method (docx2pdf)..." :: r.2)
    else if isLinuxEnv env then
      let lo := convertWithLibreoffice env inp out?
      if lo.1 then (true, detected :: "Using Linux method (LibreOffice)..." :: lo.2)
      else
        let pl := convertWithPythonLibs env inp out?
        (pl.1, detected :: "Using Linux method (LibreOffice)..."
          :: (lo.2 ++ "LibreOffice failed, trying Python libraries fallback..." :: pl.2))
    else
      (false, [detected, "Error: Unsupported operating system '" ++ env.osName ++ "'",
               "This script supports only Windows and Linux."])
  else if method = "windows" then
    let warn :=
      if !isWindowsEnv env then
        ["Warning: Using Windows method on non-Windows system may not work."]
      else []
    let r := convertWithDocx2pdf env inp out?
    (r.1, detected :: (warn ++ r.2))
  else if method = "libreoffice" then
    let r := convertWithLibreoffice env inp out?
    (r.1, detected :: r.2)
  else if method = "python" then
    let r := convertWithPythonLibs env inp out?
    (r.1, detected :: r.2)
  else (false, [detected, "Error: Unknown method '" ++ method ++ "'"])

/-- `convert_word_to_pdf` (`word_to_pdf.py` lines 150-198).  The input
checks return `False`; then — before any method is tried and OUTSIDE
every `try/except` — `Path(output_path).parent.mkdir(parents=True,
exist_ok=True)` runs when an output path was given (lines 163-165), so
its failure propagates as `Except.error`; then the dispatch runs, and
every branch of it returns normally. -/
def convertWordToPdf (env : WordEnv) (inp : String) (out? : Option String)
    (method : String) : Except String (Bool × List String) :=
  if env.pathExists inp = false then
    Except.ok (false, ["Error: Input file '" ++ inp ++ "' not found."])
  else if endsWithStr (lowerStr inp) ".docx" = false then
    Except.ok (false, ["Error: Input file must be a .docx file."])
  else
    match out? with
    | some o => Except.map (fun _ => wordDispatch env inp out? method) (env.mkdirParent o)
    | none => Except.ok (wordDispatch env inp out? method)

/-- The external world as `pdf_to_word.py` sees it: `Path.exists`,
`Path.parent.mkdir`, and the `pdf2docx` `Converter(...).convert(...)` /
`close()` pair modelled as one fallible step. -/
structure PdfEnv where
  fileExists : String → Bool
  mkdirParent : String → Except String Unit
  pdfConvert : String → String → Except String Unit

/-- The `try` block of `convert_pdf_to_word` (`pdf_to_word.py` lines
16-45): validation returns `False`, then mkdir, convert, and the
output-exists check — all inside the `try`. -/
def convertPdfToWordBody (env : PdfEnv) (inp : String) (out? : Option String) :
    Except String (Bool × List String) :=
  if env.fileExists inp = false then
    Except.ok (false, ["Error: Input file '" ++ inp ++ "' not found."])
  else if lowerStr (pathSuffix inp) ≠ ".pdf" then
    Except.ok (false, ["Error: Input file must be a PDF file."])
  else
    let out := out?.getD (withSuffix inp ".docx")
    let converting := "Converting '" ++ inp ++ "' to '" ++ out ++ "'..."
    Except.bind (env.mkdirParent out) fun _ =>
      Except.bind (env.pdfConvert inp out) fun _ =>
        if env.fileExists out then
          Except.ok (true, [converting, "Success! Word file saved as: " ++ out])
        else
          Except.ok (false, [converting, "Error: Conversion failed - output file not created."])

/-- `convert_pdf_to_word` (`pdf_to_word.py` lines 14-49): the body wrapped
in the `except Exception` handler (lines 47-49). -/
def convertPdfToWord (env : PdfEnv) (inp : String) (out? : Option String) :
    Except String (Bool × List String) :=
  tryExcept (convertPdfToWordBody env inp out?)
    (fun e => (false, ["Error during conversion: " ++ e]))

/-- The external world as `image_to_pdf.py` sees it: `Image.open` plus
`img.size` (after mode conversion), and the reportlab canvas calls. -/
structure ImgEnv where
  openImage : String → Except String (ℚ × ℚ)
  newCanvas : String → Except String Unit
  drawImage : String → ℚ → ℚ → ℚ → ℚ → Except String Unit
  saveCanvas : String → Except String Unit

/-- The `try` block of `convert_single_image` (`image_to_pdf.py` lines
32-57): open and measure the image, compute the placement, pick the
output path, draw and save, return the output path. -/
def convertSingleImageBody (env : ImgEnv) (g : PageGeometry) (imgPath : String)
    (out? : Option String) : Except String String :=
  Except.bind (env.openImage imgPath) fun wh =>
    let p := computePlacement wh.1 wh.2 g
    let out := out?.getD (withSuffix imgPath ".pdf")
    Except.bind (env.newCanvas out) fun _ =>
      Except.bind (env.drawImage imgPath p.x p.y p.finalWidth p.finalHeight) fun _ =>
        Except.bind (env.saveCanvas out) fun _ => Except.ok out

/-- `convert_single_image` (lines 31-61): the body wrapped in the
`except Exception` handler, which reports and returns `None`. -/
def convertSingleImage (env : ImgEnv) (g : PageGeometry) (imgPath : String)
    (out? : Option String) : Except String (Option String) :=
  tryExcept (Except.map some (convertSingleImageBody env g imgPath out?)) fun _ => none

/-- The `try` block of `convert_multiple_images` (lines 64-80): create
the canvas, run the layout dispatch (whose inner per-image `try` absorbs
open failures — `composePages`), save, return the output path. -/
def convertMultipleImagesBody (env : ImgEnv) (g : PageGeometry)
    (paths : List String) (out : String) (layout : String) : Except String String :=
  Except.bind (env.newCanvas out) fun _ =>
    let inputs := paths.map fun p => ImageInput.mk p (env.openImage p)
    let _ := composePages g inputs layout
    Except.bind (env.saveCanvas out) fun _ => Except.ok out

/-- `convert_multiple_images` (lines 63-84): the body wrapped in the
`except Exception` handler, which reports and returns `None`. -/
def convertMultipleImages (env : ImgEnv) (g : PageGeometry) (paths : List String)
    (out : String) (layout : String) : Except String (Option String) :=
  tryExcept (Except.map some (convertMultipleImagesBody env g paths out layout)) fun _ => none

/-- A `WordEnv` whose `mkdir` fails (e.g. the output parent exists as a
regular file, or permission is denied), with everything else healthy. -/
def mkdirFailEnv : WordEnv :=
  { osName := "linux"
    pathExists := fun _ => true
    mkdirParent := fun _ => Except.error "Permission denied: out"
    importDocx2pdf := Except.ok ()
    docx2pdfConvert := fun _ _ => Except.ok ()
    libreofficeVersion := Except.ok 0
    libreofficeConvert := fun _ _ => Except.ok (0, "")
    renameGenerated := fun _ _ => Except.ok ()
    importPythonLibs := Except.ok ()
    docxParagraphs := fun _ => Except.ok []
    buildPdf := fun _ _ => Except.ok () }

/-- **C4 counterexample.** `convert_word_to_pdf` can raise past its
boundary: with an existing `.docx` input and an explicit output path
whose parent directory cannot be created, the `mkdir` at
`word_to_pdf.py` lines 163-165 — which runs outside every `try/except`
— propagates its exception instead of returning a failure result. -/
theorem convertWordToPdf_mkdir_raises :
    convertWordToPdf mkdirFailEnv "report.docx" (some "out/report.pdf") "auto"
      = Except.error "Permission denied: out" := by
  have hdocx : endsWithStr (lowerStr "report.docx") ".docx" = true := by decide
  simp [convertWordToPdf, mkdirFailEnv, hdocx, Except.map]

/-- **C4 (amended).** No exception crosses the boundary of
`convert_pdf_to_word`, `convert_single_image` or
`convert_multiple_images` for any environment or input; the same holds
for `convert_word_to_pdf` whenever no explicit output path is given or
its output-directory creation succeeds (that `mkdir`, lines 163-165 of
`word_to_pdf.py`, is the one statement outside every handler). -/
theorem boundaries_catch_all (envW : WordEnv) (envP : PdfEnv) (envI : ImgEnv)
    (g : PageGeometry) (inpW inpP inpI : String) (outW outP outI : Option String)
    (method layout outM : String) (paths : List String)
    (hmk : ∀ o, outW = some o → envW.mkdirParent o = Except.ok ()) :
    okE (convertWordToPdf envW inpW outW method)
      ∧ okE (convertPdfToWord envP inpP outP)
      ∧ okE (convertSingleImage envI g inpI outI)
      ∧ okE (convertMultipleImages envI g paths outM layout) := by
  refine ⟨?_, tryExcept_ok _ _, tryExcept_ok _ _, tryExcept_ok _ _⟩
  unfold convertWordToPdf
  split
  · exact ⟨_, rfl⟩
  · split
    · exact ⟨_, rfl⟩
    · cases houtW : outW with
      | none => exact ⟨_, rfl⟩
      | some o =>
          refine ⟨wordDispatch envW inpW (some o) method, ?_⟩
          simp [hmk o houtW, Except.map]

/-- Witness for the amended C4 at concrete healthy environments and no
explicit Word output path. -/
theorem boundaries_catch_all_witness :
    (∀ o, (none : Option String) = some o → mkdirFailEnv.mkdirParent o = Except.ok ())
      ∧ okE (convertWordToPdf mkdirFailEnv "report.docx" none "auto")
      ∧ okE (convertPdfToWord (PdfEnv.mk (fun _ => true) (fun _ => Except.ok ())
              (fun _ _ => Except.ok ())) "in.pdf" none)
      ∧ okE (convertSingleImage (ImgEnv.mk (fun _ => Except.ok (10, 20))
              (fun _ => Except.ok ()) (fun _ _ _ _ _ => Except.ok ())
              (fun _ => Except.ok ())) (PageGeometry.mk 600 800 36) "a.png" none)
      ∧ okE (convertMultipleImages (ImgEnv.mk (fun _ => Except.ok (10, 20))
              (fun _ => Except.ok ()) (fun _ _ _ _ _ => Except.ok ())
              (fun _ => Except.ok ())) (PageGeometry.mk 600 800 36) ["a.png"]
              "out.pdf" "vertical") := by
  have h := boundaries_catch_all mkdirFailEnv
    (PdfEnv.mk (fun _ => true) (fun _ => Except.ok ()) (fun _ _ => Except.ok ()))
    (ImgEnv.mk (fun _ => Except.ok (10, 20)) (fun _ => Except.ok ())
      (fun _ _ _ _ _ => Except.ok ()) (fun _ => Except.ok ()))
    (PageGeometry.mk 600 800 36) "report.docx" "in.pdf" "a.png" none none none
    "auto" "vertical" "out.pdf" ["a.png"] (fun o h => nomatch h)
  refine ⟨?_, h.1, h.2.1, h.2.2.1, h.2.2.2⟩
  intro o hco
  exact absurd hco (by simp)

/-- **C5.** On Linux with method `auto`, `convert_word_to_pdf` (given
valid input and a working output-directory step) runs the fallback
chain: LibreOffice headless first; when it reports failure the
python-docx + reportlab text-only reconstruction runs last and decides
the result; when the LibreOffice engine is unavailable (version check
returncode nonzero) the step prints install guidance and returns the
failure flag instead of raising, likewise when the python libraries are
absent; a spawn failure is also caught and returned as failure. -/
theorem linux_auto_fallback_chain (env : WordEnv) (inp : String) (out? : Option String)
    (hos : env.osName = "linux")
    (hex : env.pathExists inp = true)
    (hdocx : endsWithStr (lowerStr inp) ".docx" = true)
    (hmk : ∀ o, out? = some o → env.mkdirParent o = Except.ok ()) :
    convertWordToPdf env inp out? "auto" = Except.ok (wordDispatch env inp out? "auto")
      ∧ ((convertWithLibreoffice env inp out?).1 = true →
          wordDispatch env inp out? "auto"
            = (true, "Detected OS: linux" :: "Using Linux method (LibreOffice)..."
                :: (convertWithLibreoffice env inp out?).2))
      ∧ ((convertWithLibreoffice env inp out?).1 = false →
          wordDispatch env inp out? "auto"
            = ((convertWithPythonLibs env inp out?).1,
               "Detected OS: linux" :: "Using Linux method (LibreOffice)..."
                :: ((convertWithLibreoffice env inp out?).2
                    ++ "LibreOffice failed, trying Python libraries fallback..."
                      :: (convertWithPythonLibs env inp out?).2)))
      ∧ (∀ rc : Int, env.libreofficeVersion = Except.ok rc → rc ≠ 0 →
          convertWithLibreoffice env inp out?
            = (false, ["Error: LibreOffice is not installed. Install it with:",
                       "sudo apt-get install libreoffice"]))
      ∧ (∀ e : String, env.libreofficeVersion = Except.error e →
          convertWithLibreoffice env inp out?
            = (false, ["Error during LibreOffice conversion: " ++ e]))
      ∧ (∀ lib : String, env.importPythonLibs = Except.error lib →
          convertWithPythonLibs env inp out?
            = (false, ["Error: Required library '" ++ lib ++ "' not found.",
                       "Install required libraries with:",
                       "pip install python-docx reportlab"])) := by
  have hwin : isWindowsEnv env = false := by
    unfold isWindowsEnv; rw [hos]; decide
  have hlin : isLinuxEnv env = true := by
    unfold isLinuxEnv; rw [hos]; decide
  have hdet : "Detected OS: " ++ env.osName = "Detected OS: linux" := by
    rw [hos]; decide
  refine ⟨?_, ?_, ?_, ?_, ?_, ?_⟩
  · cases houtW : out? with
    | none => simp [convertWordToPdf, hex, hdocx]
    | some o => simp [convertWordToPdf, hex, hdocx, hmk o houtW, Except.map]
  · intro hlo
    unfold wordDispatch
    simp [hwin, hlin, hlo, hdet]
  · intro hlo
    unfold wordDispatch
    simp [hwin, hlin, hlo, hdet]
  · intro rc hver hrc
    unfold convertWithLibreoffice
    rw [hver]
    simp [hrc]
  · intro e hver
    unfold convertWithLibreoffice
    rw [hver]
  · intro lib hlib
    unfold convertWithPythonLibs
    rw [hlib]

/-- A Linux host with LibreOffice's version check failing and the Python
fallback libraries absent. -/
def linuxNoEnginesEnv : WordEnv :=
  { osName := "linux"
    pathExists := fun _ => true
    mkdirParent := fun _ => Except.ok ()
    importDocx2pdf := Except.error "no docx2pdf"
    docx2pdfConvert := fun _ _ => Except.error "unused"
    libreofficeVersion := Except.ok 1
    libreofficeConvert := fun _ _ => Except.error "unused"
    renameGenerated := fun _ _ => Except.ok ()
    importPythonLibs := Except.error "docx"
    docxParagraphs := fun _ => Except.error "unused"
    buildPdf := fun _ _ => Except.error "unused" }

/-- Witness for C5: on a Linux host with no engines, the chain runs to
the end, printing install guidance at each unavailable engine and
returning failure without raising. -/
theorem linux_auto_fallback_chain_witness :
    linuxNoEnginesEnv.osName = "linux"
      ∧ linuxNoEnginesEnv.pathExists "doc.docx" = true
      ∧ endsWithStr (lowerStr "doc.docx") ".docx" = true
      ∧ convertWordToPdf linuxNoEnginesEnv "doc.docx" none "auto"
          = Except.ok (wordDispatch linuxNoEnginesEnv "doc.docx" none "auto")
      ∧ convertWithLibreoffice linuxNoEnginesEnv "doc.docx" none
          = (false, ["Error: LibreOffice is not installed. Install it with:",
                     "sudo apt-get install libreoffice"])
      ∧ convertWithPythonLibs linuxNoEnginesEnv "doc.docx" none
          = (false, ["Error: Required library 'docx' not found.",
                     "Install required libraries with:",
                     "pip install python-docx reportlab"]) := by
  have h := linux_auto_fallback_chain linuxNoEnginesEnv "doc.docx" none rfl rfl
    (by decide) (fun o hh => absurd hh (by simp))
  exact ⟨rfl, rfl, by decide, h.1, h.2.2.2.1 1 rfl (by decide),
    h.2.2.2.2.2 "docx" rfl⟩
